import Mathlib

/-!
Verification of `gensim/similarities/levenshtein.py`.

Terms are modelled as `List Char`, Python floats as real numbers, and the
Python `**` operator as `Real.rpow` (they agree on non-negative bases and on
negative bases with integer exponents, the only cases exercised here).
Fallible Python code is modelled with `Except PyErr`.  The third-party
`Levenshtein.distance` and pyffs trie/automaton machinery are not part of the
repository; they are modelled from the specification (§4.2-4.3, §8, glossary)
as the textbook edit distance and the set of vocabulary terms within the
distance bound.
-/

namespace Gensim

/-- Errors a modelled Python function can raise. -/
inductive PyErr where
  | assertionError
  | zeroDivisionError
deriving DecidableEq

/-- Helper realising one row of the edit-distance recurrence structurally:
`levStep c1 (lev t1)` is `lev (c1 :: t1)`.  See `lev_cons_cons`. -/
def levStep (c1 : Char) (F : List Char → ℕ) : List Char → ℕ
  | [] => F [] + 1
  | c2 :: t2 =>
      min (F t2 + (if c1 = c2 then 0 else 1))
        (min (levStep c1 F t2 + 1) (F (c2 :: t2) + 1))

/-- Modelled from the spec: the external `Levenshtein.distance` used by
`levdist`, i.e. the glossary's edit distance, by the standard
dynamic-programming recurrence (insertion, deletion, substitution, each of
cost 1); the recurrence is stated by `lev_nil_left`, `lev_nil_right` and
`lev_cons_cons`. -/
def lev : List Char → List Char → ℕ
  | [], t2 => t2.length
  | c1 :: t1, t2 => levStep c1 (lev t1) t2

/-- Base case of the edit-distance recurrence: distance to the empty term. -/
theorem lev_nil_left (t2 : List Char) : lev [] t2 = t2.length := rfl

/-- Base case of the edit-distance recurrence: distance from the empty term. -/
theorem lev_nil_right (t1 : List Char) : lev t1 [] = t1.length := by
  induction t1 with
  | nil => rfl
  | cons c1 t1 ih => simp [lev, levStep, ih]

/-- The textbook edit-distance recurrence (substitution, insertion and
deletion of cost 1), satisfied by the structurally recursive `lev`. -/
theorem lev_cons_cons (c1 c2 : Char) (t1 t2 : List Char) :
    lev (c1 :: t1) (c2 :: t2) =
      min (lev t1 t2 + (if c1 = c2 then 0 else 1))
        (min (lev (c1 :: t1) t2 + 1) (lev t1 (c2 :: t2) + 1)) := rfl

/-- Embedding of `levdist(t1, t2, max_distance)` (levenshtein.py lines 24-55).
`max_distance` is `WithTop ℤ`; `⊤` models the default `float("inf")`. -/
def levdist (t1 t2 : List Char) (max_distance : WithTop ℤ) : ℕ :=
  let distance := lev t1 t2
  if ((distance : ℤ) : WithTop ℤ) > max_distance then
    max t1.length t2.length
  else
    distance

/-- Embedding of `levsim(t1, t2, alpha, beta, min_similarity, distance)`
(levenshtein.py lines 58-106).  The two `assert` statements raise
`AssertionError`; the divisions `min_similarity / alpha` and `1 / beta` on
line 102 raise `ZeroDivisionError` when `alpha = 0` or `beta = 0` (they are
evaluated even when `distance` is supplied). -/
noncomputable def levsim (t1 t2 : List Char) (alpha beta min_similarity : ℝ)
    (distance : Option ℕ) : Except PyErr ℝ :=
  if alpha < 0 then .error .assertionError
  else if beta < 0 then .error .assertionError
  else
    let max_lengths := max t1.length t2.length
    if max_lengths = 0 then .ok 1
    else if alpha = 0 then .error .zeroDivisionError
    else if beta = 0 then .error .zeroDivisionError
    else
      let min_similarity := max (min min_similarity 1) 0
      let max_distance : ℤ :=
        ⌊(max_lengths : ℝ) * (1 - (min_similarity / alpha) ^ ((1 : ℝ) / beta))⌋
      let d : ℕ :=
        match distance with
        | some d => d
        | none => levdist t1 t2 (max_distance : WithTop ℤ)
      .ok (alpha * (1 - (d : ℝ) / (max_lengths : ℝ)) ^ beta)

/-- The scorer of spec §4.4, as computed by levenshtein.py lines 97-99 and
105: `score = alpha * (1 - distance / max(len1, len2)) ^ beta`, with the
empty-terms special case. -/
noncomputable def score (distance : ℤ) (len1 len2 : ℕ) (alpha beta : ℝ) : ℝ :=
  if max len1 len2 = 0 then 1
  else alpha * (1 - (distance : ℝ) / ((max len1 len2 : ℕ) : ℝ)) ^ beta

/-- The threshold inversion of spec §4.4, as computed by levenshtein.py lines
101-102: clamp `min_similarity` to `[0, 1]`, then
`floor(max_len * (1 - (min_similarity / alpha) ^ (1 / beta)))`. -/
noncomputable def max_distance_for_threshold (min_similarity : ℝ) (max_len : ℕ)
    (alpha beta : ℝ) : ℤ :=
  ⌊(max_len : ℝ) * (1 - (max (min min_similarity 1) 0 / alpha) ^ ((1 : ℝ) / beta))⌋

/-- Modelled from the spec: the pyffs `trie_automaton_intersection` over the
`LevenshteinAutomaton` for bound `k` and query `t1` (spec §4.3, §8): it
yields, once per vocabulary term within edit distance `k` of the query, the
pair `(exact edit distance, term)`, in vocabulary order (the traversal order
is unspecified by the spec). -/
def trie_automaton_intersection (k : ℕ) (t1 : List Char)
    (words : List (List Char)) : List (ℕ × List Char) :=
  (words.filter fun t2 => lev t1 t2 ≤ k).map fun t2 => (lev t1 t2, t2)

/-- Fail-fast effectful map, modelling a Python list comprehension whose
element expression can raise: elements are produced left to right, and the
first raised error propagates. -/
def mapExcept (f : α → Except PyErr β) : List α → Except PyErr (List β)
  | [] => .ok []
  | x :: xs =>
    match f x with
    | .error e => .error e
    | .ok y =>
      match mapExcept f xs with
      | .error e => .error e
      | .ok ys => .ok (y :: ys)

/-- The `similarities` list comprehension of `most_similar` (levenshtein.py
lines 158-162): score every intersection match other than the query itself,
keeping `(similarity, term)` pairs. -/
noncomputable def similarities_list (words : List (List Char))
    (alpha beta threshold : ℝ) (max_distance : ℕ) (t1 : List Char) :
    Except PyErr (List (ℝ × List Char)) :=
  mapExcept
    (fun p => (levsim t1 p.2 alpha beta threshold (some p.1)).map fun s => (s, p.2))
    ((trie_automaton_intersection max_distance t1 words).filter fun p => p.2 ≠ t1)

/-- Stable descending insertion (by the second component) into an already
descending list; `insertDesc` and `sortDesc` model Python's stable
`sorted(..., key=lambda item: -item[1])` on levenshtein.py line 164. -/
noncomputable def insertDesc (x : List Char × ℝ) :
    List (List Char × ℝ) → List (List Char × ℝ)
  | [] => [x]
  | y :: ys => if y.2 ≤ x.2 then x :: y :: ys else y :: insertDesc x ys

/-- Stable sort, descending in the second component; see `insertDesc`. -/
noncomputable def sortDesc : List (List Char × ℝ) → List (List Char × ℝ)
  | [] => []
  | x :: xs => insertDesc x (sortDesc xs)

/-- Embedding of `LevenshteinSimilarityIndex.most_similar(t1, topn)`
(levenshtein.py lines 156-164) for an index with vocabulary `words` and
configuration `(alpha, beta, threshold, max_distance)`: the automaton is
built with bound `max_distance`, matches equal to the query are dropped,
each match is scored by `levsim` with its exact distance supplied, matches
with non-positive score are dropped, and the rest is sorted by descending
score and truncated to `topn`. -/
noncomputable def most_similar (words : List (List Char))
    (alpha beta threshold : ℝ) (max_distance : ℕ) (t1 : List Char)
    (topn : ℕ) : Except PyErr (List (List Char × ℝ)) :=
  match similarities_list words alpha beta threshold max_distance t1 with
  | .error e => .error e
  | .ok similarities =>
    .ok ((sortDesc ((similarities.filter fun p => 0 < p.1).map
        fun p => (p.2, p.1))).take topn)

/-- On non-empty terms with strictly positive `alpha` and `beta`, `levsim`
with a supplied distance returns the Charlet-Damnati similarity. -/
theorem levsim_ok (t1 t2 : List Char) (alpha beta s : ℝ) (d : ℕ)
    (ha : 0 < alpha) (hb : 0 < beta) (hm : max t1.length t2.length ≠ 0) :
    levsim t1 t2 alpha beta s (some d) =
      .ok (alpha * (1 - (d : ℝ) / ((max t1.length t2.length : ℕ) : ℝ)) ^ beta) := by
  unfold levsim
  rw [if_neg (not_lt.mpr ha.le), if_neg (not_lt.mpr hb.le), if_neg hm,
    if_neg ha.ne', if_neg hb.ne']

/-- On two empty terms, `levsim` returns 1 whenever the asserts pass. -/
theorem levsim_empty (t1 t2 : List Char) (alpha beta s : ℝ) (d : Option ℕ)
    (ha : 0 ≤ alpha) (hb : 0 ≤ beta) (hm : max t1.length t2.length = 0) :
    levsim t1 t2 alpha beta s d = .ok 1 := by
  unfold levsim
  rw [if_neg (not_lt.mpr ha), if_neg (not_lt.mpr hb), if_pos hm]

/-- With non-negative parameters, `levsim` either returns a value or raises
`ZeroDivisionError`; it never raises `AssertionError`. -/
theorem levsim_cases (t1 t2 : List Char) (alpha beta s : ℝ) (d : Option ℕ)
    (ha : 0 ≤ alpha) (hb : 0 ≤ beta) :
    (∃ r, levsim t1 t2 alpha beta s d = .ok r) ∨
    levsim t1 t2 alpha beta s d = .error .zeroDivisionError := by
  unfold levsim
  rw [if_neg (not_lt.mpr ha), if_neg (not_lt.mpr hb)]
  by_cases hm : max t1.length t2.length = 0
  · rw [if_pos hm]
    exact .inl ⟨1, rfl⟩
  rw [if_neg hm]
  by_cases ha0 : alpha = 0
  · rw [if_pos ha0]
    exact .inr rfl
  rw [if_neg ha0]
  by_cases hb0 : beta = 0
  · rw [if_pos hb0]
    exact .inr rfl
  rw [if_neg hb0]
  exact .inl ⟨_, rfl⟩

/-- Evaluation of `score` at a natural-number exponent. -/
theorem score_eval (e : ℤ) (l : ℕ) (alpha : ℝ) (n : ℕ) (hl : l ≠ 0) :
    score e l l alpha (n : ℝ) = alpha * (1 - (e : ℝ) / (l : ℝ)) ^ n := by
  rw [score, max_self, if_neg hl, Real.rpow_natCast]

/-- C1, counterexample: as stated the claim admits `alpha = 0`, but for
non-empty terms `levsim` then raises `ZeroDivisionError` (the threshold
inversion on line 102 divides by `alpha`) instead of returning
`0 * (1 - 0 / 1) ^ 5 = 0`. -/
theorem C1_counterexample :
    levsim ['a'] [] 0 5 0 (some 0) = .error .zeroDivisionError := by
  unfold levsim
  norm_num

/-- C1 (amended): with a supplied distance `d`, `levsim` returns exactly 1.0
when `max(len(t1), len(t2)) = 0` (for all `alpha >= 0`, `beta >= 0`), and
returns `alpha * (1 - d / max(len(t1), len(t2))) ^ beta` when the maximum
length is positive, provided `alpha > 0` and `beta > 0` (at `alpha = 0` or
`beta = 0` the threshold-inversion step raises `ZeroDivisionError`). -/
theorem C1_levsim_formula (t1 t2 : List Char) (alpha beta s : ℝ) (d : ℕ) :
    (0 ≤ alpha → 0 ≤ beta → max t1.length t2.length = 0 →
      levsim t1 t2 alpha beta s (some d) = .ok 1) ∧
    (0 < alpha → 0 < beta → max t1.length t2.length ≠ 0 →
      levsim t1 t2 alpha beta s (some d) =
        .ok (alpha * (1 - (d : ℝ) / ((max t1.length t2.length : ℕ) : ℝ)) ^ beta)) :=
  ⟨fun ha hb hm => levsim_empty t1 t2 alpha beta s (some d) ha hb hm,
   fun ha hb hm => levsim_ok t1 t2 alpha beta s d ha hb hm⟩

/-- Witness for C1: both branches at concrete inputs. -/
theorem C1_witness :
    (levsim [] [] (9/5) 5 0 (some 0) = .ok 1) ∧
    (levsim ['a'] [] (9/5) 5 0 (some 1) =
      .ok ((9/5) * (1 - ((1 : ℕ) : ℝ) /
        ((max (List.length ['a']) (List.length ([] : List Char)) : ℕ) : ℝ)) ^ (5 : ℝ))) :=
  ⟨(C1_levsim_formula [] [] (9/5) 5 0 0).1 (by norm_num) (by norm_num) rfl,
   (C1_levsim_formula ['a'] [] (9/5) 5 0 1).2 (by norm_num) (by norm_num) (by decide)⟩

/-- C2, counterexample: at the valid configuration `min_similarity = 0`
(the default threshold), `max_len = 1`, `alpha = 1.8`, `beta = 4`, the
derived bound is `d = 1` but `score(d+1) = 1.8 * (1 - 2)^4 = 1.8`, which is
not below `min_similarity = 0`: boundary tightness fails. -/
theorem C2_counterexample :
    ¬ (0 ≤ score (max_distance_for_threshold 0 1 (9/5) 4) 1 1 (9/5) 4 ∧
       score (max_distance_for_threshold 0 1 (9/5) 4 + 1) 1 1 (9/5) 4 < 0) := by
  rintro ⟨-, h2⟩
  have hmdt : max_distance_for_threshold 0 1 (9/5) 4 = 1 := by
    rw [max_distance_for_threshold]
    norm_num
  rw [hmdt, show ((4:ℝ)) = ((4:ℕ):ℝ) by norm_num,
    score_eval _ _ _ _ (by norm_num)] at h2
  norm_num at h2

/-- C2 (amended): for `0 < min_similarity <= 1` (with `alpha > 0`,
`beta > 0`, `max_len > 0`), the derived bound
`d = floor(max_len * (1 - (min_similarity / alpha) ^ (1 / beta)))` is
boundary-tight: `score(d) >= min_similarity` and
`score(d+1) < min_similarity`.  (At clamped `min_similarity = 0` the second
inequality can fail, see the counterexample.) -/
theorem C2_threshold_inversion (s : ℝ) (m : ℕ) (alpha beta : ℝ)
    (hs0 : 0 < s) (hs1 : s ≤ 1) (hm : 0 < m) (ha : 0 < alpha) (hb : 0 < beta) :
    s ≤ score (max_distance_for_threshold s m alpha beta) m m alpha beta ∧
    score (max_distance_for_threshold s m alpha beta + 1) m m alpha beta < s := by
  have hmR : (0 : ℝ) < (m : ℝ) := by exact_mod_cast hm
  have hclamp : max (min s 1) 0 = s := by rw [min_eq_left hs1, max_eq_left hs0.le]
  have hsa : 0 < s / alpha := div_pos hs0 ha
  set c : ℝ := (s / alpha) ^ ((1 : ℝ) / beta) with hc
  have hc0 : 0 < c := Real.rpow_pos_of_pos hsa _
  have hcb : c ^ beta = s / alpha := by
    rw [hc, one_div, Real.rpow_inv_rpow hsa.le hb.ne']
  have hd : max_distance_for_threshold s m alpha beta = ⌊(m : ℝ) * (1 - c)⌋ := by
    rw [max_distance_for_threshold, hclamp]
  set d : ℤ := max_distance_for_threshold s m alpha beta with hdd
  have hmm : max m m = m := max_self m
  have hsc : ∀ e : ℤ, score e m m alpha beta
      = alpha * (1 - (e : ℝ) / (m : ℝ)) ^ beta := by
    intro e
    rw [score, hmm, if_neg hm.ne']
  constructor
  · have hfl : (d : ℝ) ≤ (m : ℝ) * (1 - c) := by
      rw [hd]
      exact Int.floor_le _
    have h1 : c ≤ 1 - (d : ℝ) / (m : ℝ) := by
      rw [le_sub_comm, div_le_iff₀ hmR]
      nlinarith
    have h2 : c ^ beta ≤ (1 - (d : ℝ) / (m : ℝ)) ^ beta :=
      Real.rpow_le_rpow hc0.le h1 hb.le
    rw [hsc d]
    calc s = alpha * (s / alpha) := by field_simp
    _ = alpha * c ^ beta := by rw [hcb]
    _ ≤ alpha * (1 - (d : ℝ) / (m : ℝ)) ^ beta :=
        mul_le_mul_of_nonneg_left h2 ha.le
  · have hfl : (m : ℝ) * (1 - c) < (d : ℝ) + 1 := by
      rw [hd]
      exact Int.lt_floor_add_one _
    have hdm : d < (m : ℤ) := by
      rw [hd]
      apply Int.floor_lt.mpr
      push_cast
      nlinarith
    have hd1m : ((d : ℝ) + 1) ≤ (m : ℝ) := by
      have h : d + 1 ≤ (m : ℤ) := hdm
      exact_mod_cast h
    have h0 : (0:ℝ) ≤ 1 - ((d : ℝ) + 1) / (m : ℝ) := by
      rw [sub_nonneg, div_le_one hmR]
      linarith
    have h1 : 1 - ((d : ℝ) + 1) / (m : ℝ) < c := by
      rw [sub_lt_comm, lt_div_iff₀ hmR]
      nlinarith
    have h2 : (1 - ((d : ℝ) + 1) / (m : ℝ)) ^ beta < c ^ beta :=
      Real.rpow_lt_rpow h0 h1 hb
    rw [hsc (d + 1)]
    push_cast
    calc alpha * (1 - ((d : ℝ) + 1) / (m : ℝ)) ^ beta
        < alpha * c ^ beta := mul_lt_mul_of_pos_left h2 ha
    _ = alpha * (s / alpha) := by rw [hcb]
    _ = s := by field_simp

/-- Witness for C2: boundary tightness at threshold 1/2, length 2, default
alpha and beta. -/
theorem C2_witness :
    (1/2 : ℝ) ≤ score (max_distance_for_threshold (1/2) 2 (9/5) 5) 2 2 (9/5) 5 ∧
    score (max_distance_for_threshold (1/2) 2 (9/5) 5 + 1) 2 2 (9/5) 5 < 1/2 :=
  C2_threshold_inversion (1/2) 2 (9/5) 5 (by norm_num) (by norm_num)
    (by norm_num) (by norm_num) (by norm_num)

/-- C8: `levsim` fails fast with `AssertionError` (the code's
invalid-argument signal, raised by the asserts before anything else runs)
whenever `alpha < 0` or `beta < 0`, and never raises that error when
`alpha >= 0` and `beta >= 0`. -/
theorem C8_assert_negative_parameters (t1 t2 : List Char) (alpha beta s : ℝ)
    (d : Option ℕ) :
    ((alpha < 0 ∨ beta < 0) →
      levsim t1 t2 alpha beta s d = .error .assertionError) ∧
    (0 ≤ alpha → 0 ≤ beta →
      levsim t1 t2 alpha beta s d ≠ .error .assertionError) := by
  constructor
  · intro h
    unfold levsim
    by_cases ha : alpha < 0
    · rw [if_pos ha]
    · rw [if_neg ha, if_pos (h.resolve_left ha)]
  · intro ha hb
    rcases levsim_cases t1 t2 alpha beta s d ha hb with ⟨r, hr⟩ | h
    · rw [hr]
      simp
    · rw [h]
      simp

/-- Witness for C8: a negative `alpha` raises, non-negative parameters do
not raise `AssertionError`. -/
theorem C8_witness :
    levsim ['a'] [] (-1) 5 0 (some 0) = .error .assertionError ∧
    levsim ['a'] [] 1 1 0 (some 0) ≠ .error .assertionError :=
  ⟨(C8_assert_negative_parameters ['a'] [] (-1) 5 0 (some 0)).1
      (Or.inl (by norm_num)),
   (C8_assert_negative_parameters ['a'] [] 1 1 0 (some 0)).2
      (by norm_num) (by norm_num)⟩

/-- C9, counterexample: with `len1 = len2 = 1`, `alpha = 1.8`, `beta = 4`
(valid parameters) and distances `2 <= 3`, the score increases from
`1.8 * (1-2)^4 = 1.8` to `1.8 * (1-3)^4 = 28.8`: the score is not
monotonically non-increasing once the distance exceeds the maximum length. -/
theorem C9_counterexample :
    (2 : ℕ) ≤ 3 ∧
    ¬ score ((3 : ℕ) : ℤ) 1 1 (9/5) 4 ≤ score ((2 : ℕ) : ℤ) 1 1 (9/5) 4 := by
  refine ⟨by norm_num, ?_⟩
  rw [show ((4:ℝ)) = ((4:ℕ):ℝ) by norm_num, score_eval _ _ _ _ (by norm_num),
    score_eval _ _ _ _ (by norm_num)]
  norm_num

/-- C9 (amended): for fixed lengths (not both zero) and `alpha >= 0`,
`beta >= 0`, the score is monotonically non-increasing in the distance over
the range of distances the program can produce, i.e. for
`d1 <= d2 <= max(len1, len2)`.  (Beyond the maximum length the base
`1 - d / max` turns negative and monotonicity can fail, see the
counterexample.) -/
theorem C9_score_monotone (d1 d2 l1 l2 : ℕ) (alpha beta : ℝ) (h12 : d1 ≤ d2)
    (h2m : d2 ≤ max l1 l2) (hl : max l1 l2 ≠ 0)
    (ha : 0 ≤ alpha) (hb : 0 ≤ beta) :
    score (d2 : ℤ) l1 l2 alpha beta ≤ score (d1 : ℤ) l1 l2 alpha beta := by
  rw [score, score, if_neg hl, if_neg hl]
  have hmR : (0 : ℝ) < ((max l1 l2 : ℕ) : ℝ) := by
    exact_mod_cast Nat.pos_of_ne_zero hl
  have h0 : (0 : ℝ) ≤ 1 - (((d2 : ℕ) : ℤ) : ℝ) / ((max l1 l2 : ℕ) : ℝ) := by
    rw [sub_nonneg, div_le_one hmR]
    exact_mod_cast h2m
  have hle : 1 - (((d2 : ℕ) : ℤ) : ℝ) / ((max l1 l2 : ℕ) : ℝ)
      ≤ 1 - (((d1 : ℕ) : ℤ) : ℝ) / ((max l1 l2 : ℕ) : ℝ) := by
    have h12R : (((d1 : ℕ) : ℤ) : ℝ) ≤ (((d2 : ℕ) : ℤ) : ℝ) := by exact_mod_cast h12
    gcongr
  exact mul_le_mul_of_nonneg_left (Real.rpow_le_rpow h0 hle hb) ha

/-- Witness for C9: distances 1 and 2 on length-3 terms with the default
parameters. -/
theorem C9_witness :
    score ((2 : ℕ) : ℤ) 3 3 (9/5) 5 ≤ score ((1 : ℕ) : ℤ) 3 3 (9/5) 5 :=
  C9_score_monotone 1 2 3 3 (9/5) 5 (by norm_num) (by norm_num) (by norm_num)
    (by norm_num) (by norm_num)

/-- C10: `levdist` returns the exact Levenshtein distance whenever it is at
most `max_distance`, returns `max(len(t1), len(t2))` when it is strictly
greater, and with the default `max_distance` (infinity, modelled by `⊤`)
always returns the exact distance. -/
theorem C10_levdist_clipping (t1 t2 : List Char) (k : WithTop ℤ) :
    (((lev t1 t2 : ℤ) : WithTop ℤ) ≤ k → levdist t1 t2 k = lev t1 t2) ∧
    (k < ((lev t1 t2 : ℤ) : WithTop ℤ) →
      levdist t1 t2 k = max t1.length t2.length) ∧
    levdist t1 t2 ⊤ = lev t1 t2 := by
  refine ⟨fun h => ?_, fun h => ?_, ?_⟩
  · rw [levdist]
    exact if_neg (not_lt.mpr h)
  · rw [levdist]
    exact if_pos h
  · rw [levdist]
    exact if_neg not_top_lt

/-- Inversion of `Except.map` returning a value. -/
theorem except_map_ok {α β : Type} {f : α → β} {e : Except PyErr α} {b : β}
    (h : Except.map f e = .ok b) : ∃ a, e = .ok a ∧ b = f a := by
  cases e with
  | error err => simp [Except.map] at h
  | ok a => exact ⟨a, rfl, by simpa [Except.map] using h.symm⟩

/-- Every element produced by a successful `mapExcept` comes from applying
the function to some element of the input list. -/
theorem mapExcept_ok_mem {α β : Type} {f : α → Except PyErr β} {l : List α}
    {out : List β} (h : mapExcept f l = .ok out) :
    ∀ y ∈ out, ∃ x ∈ l, f x = .ok y := by
  induction l generalizing out with
  | nil =>
    simp only [mapExcept, Except.ok.injEq] at h
    subst h
    intro y hy
    exact absurd hy (List.not_mem_nil y)
  | cons x xs ih =>
    simp only [mapExcept] at h
    cases hfx : f x with
    | error e =>
      rw [hfx] at h
      exact absurd h (by simp)
    | ok y0 =>
      rw [hfx] at h
      cases hm : mapExcept f xs with
      | error e =>
        rw [hm] at h
        exact absurd h (by simp)
      | ok ys =>
        rw [hm] at h
        simp only [Except.ok.injEq] at h
        subst h
        intro y hy
        rcases List.mem_cons.mp hy with rfl | hy'
        · exact ⟨x, List.mem_cons_self x xs, hfx⟩
        · rcases ih hm y hy' with ⟨x', hx', hfx'⟩
          exact ⟨x', List.mem_cons_of_mem x hx', hfx'⟩

/-- A successful `mapExcept` preserves the length of the list. -/
theorem mapExcept_ok_length {α β : Type} {f : α → Except PyErr β} {l : List α}
    {out : List β} (h : mapExcept f l = .ok out) : out.length = l.length := by
  induction l generalizing out with
  | nil =>
    simp only [mapExcept, Except.ok.injEq] at h
    subst h
    rfl
  | cons x xs ih =>
    simp only [mapExcept] at h
    cases hfx : f x with
    | error e =>
      rw [hfx] at h
      exact absurd h (by simp)
    | ok y0 =>
      rw [hfx] at h
      cases hm : mapExcept f xs with
      | error e =>
        rw [hm] at h
        exact absurd h (by simp)
      | ok ys =>
        rw [hm] at h
        simp only [Except.ok.injEq] at h
        subst h
        simp [ih hm]

/-- Membership in `insertDesc`. -/
theorem insertDesc_mem (x y : List Char × ℝ) (l : List (List Char × ℝ)) :
    y ∈ insertDesc x l ↔ y = x ∨ y ∈ l := by
  induction l with
  | nil => simp [insertDesc]
  | cons z zs ih =>
    rw [insertDesc]
    by_cases hz : z.2 ≤ x.2
    · rw [if_pos hz]
      simp [or_comm, or_left_comm]
    · rw [if_neg hz]
      simp only [List.mem_cons, ih]
      tauto

/-- Membership in `sortDesc`. -/
theorem sortDesc_mem (y : List Char × ℝ) (l : List (List Char × ℝ)) :
    y ∈ sortDesc l ↔ y ∈ l := by
  induction l with
  | nil => simp [sortDesc]
  | cons z zs ih =>
    rw [sortDesc, insertDesc_mem]
    simp [ih]

/-- The length of `insertDesc`. -/
theorem insertDesc_length (x : List Char × ℝ) (l : List (List Char × ℝ)) :
    (insertDesc x l).length = l.length + 1 := by
  induction l with
  | nil => rfl
  | cons z zs ih =>
    rw [insertDesc]
    by_cases hz : z.2 ≤ x.2
    · rw [if_pos hz]
      rfl
    · rw [if_neg hz]
      simp [ih]

/-- Sorting does not change the length. -/
theorem sortDesc_length (l : List (List Char × ℝ)) :
    (sortDesc l).length = l.length := by
  induction l with
  | nil => rfl
  | cons z zs ih =>
    rw [sortDesc, insertDesc_length, ih]
    rfl

/-- Inserting into a descending list keeps it descending. -/
theorem insertDesc_pairwise (x : List Char × ℝ) (l : List (List Char × ℝ))
    (h : l.Pairwise fun a b => b.2 ≤ a.2) :
    (insertDesc x l).Pairwise fun a b => b.2 ≤ a.2 := by
  induction l with
  | nil => simp [insertDesc]
  | cons z zs ih =>
    rw [List.pairwise_cons] at h
    rw [insertDesc]
    by_cases hz : z.2 ≤ x.2
    · rw [if_pos hz]
      refine List.Pairwise.cons ?_ (List.Pairwise.cons h.1 h.2)
      intro w hw
      rcases List.mem_cons.mp hw with rfl | hw'
      · exact hz
      · exact le_trans (h.1 w hw') hz
    · rw [if_neg hz]
      refine List.Pairwise.cons ?_ (ih h.2)
      intro w hw
      rcases (insertDesc_mem x w zs).mp hw with rfl | hw'
      · exact le_of_lt (not_le.mp hz)
      · exact h.1 w hw'

/-- The output of `sortDesc` is descending in the score component. -/
theorem sortDesc_pairwise (l : List (List Char × ℝ)) :
    (sortDesc l).Pairwise fun a b => b.2 ≤ a.2 := by
  induction l with
  | nil => exact List.Pairwise.nil
  | cons z zs ih => exact insertDesc_pairwise z (sortDesc zs) ih

/-- C5: `most_similar` never returns the query term itself, even when the
query is in the vocabulary (the comprehension drops matches equal to the
query). -/
theorem C5_self_exclusion (words : List (List Char))
    (alpha beta threshold : ℝ) (k : ℕ) (t1 : List Char) (topn : ℕ)
    (res : List (List Char × ℝ))
    (h : most_similar words alpha beta threshold k t1 topn = .ok res) :
    t1 ∉ res.map Prod.fst := by
  intro hmem
  rcases List.mem_map.mp hmem with ⟨pr, hpr, hfst⟩
  cases hs : similarities_list words alpha beta threshold k t1 with
  | error e =>
    rw [most_similar, hs] at h
    exact absurd h (by simp)
  | ok sims =>
    rw [most_similar, hs] at h
    simp only [Except.ok.injEq] at h
    subst h
    have h1 : pr ∈ sortDesc ((sims.filter fun p => 0 < p.1).map
        fun p => (p.2, p.1)) := List.mem_of_mem_take hpr
    have h2 : pr ∈ (sims.filter fun p => 0 < p.1).map fun p => (p.2, p.1) :=
      (sortDesc_mem pr _).mp h1
    rcases List.mem_map.mp h2 with ⟨p, hp, hpr2⟩
    have hp' : p ∈ sims := List.mem_of_mem_filter hp
    rw [similarities_list] at hs
    rcases mapExcept_ok_mem hs p hp' with ⟨q, hq, hfq⟩
    have hq2 : q.2 ≠ t1 := by
      have := List.of_mem_filter hq
      simpa using this
    rcases except_map_ok hfq with ⟨sv, -, hpeq⟩
    apply hq2
    calc q.2 = p.2 := by rw [hpeq]
    _ = pr.1 := by rw [← hpr2]
    _ = t1 := hfst

/-- C6: the length of the `most_similar` result is the minimum of `topn`
and the number of scored matches with strictly positive similarity. -/
theorem C6_truncation (words : List (List Char)) (alpha beta threshold : ℝ)
    (k : ℕ) (t1 : List Char) (topn : ℕ) (sims : List (ℝ × List Char))
    (res : List (List Char × ℝ))
    (hs : similarities_list words alpha beta threshold k t1 = .ok sims)
    (h : most_similar words alpha beta threshold k t1 topn = .ok res) :
    res.length = min topn (sims.filter fun p => 0 < p.1).length := by
  rw [most_similar, hs] at h
  simp only [Except.ok.injEq] at h
  subst h
  rw [List.length_take, sortDesc_length, List.length_map]

/-- C7: the pairs returned by `most_similar` are sorted by non-increasing
similarity score. -/
theorem C7_descending (words : List (List Char)) (alpha beta threshold : ℝ)
    (k : ℕ) (t1 : List Char) (topn : ℕ) (res : List (List Char × ℝ))
    (h : most_similar words alpha beta threshold k t1 topn = .ok res) :
    res.Pairwise fun a b => b.2 ≤ a.2 := by
  cases hs : similarities_list words alpha beta threshold k t1 with
  | error e =>
    rw [most_similar, hs] at h
    exact absurd h (by simp)
  | ok sims =>
    rw [most_similar, hs] at h
    simp only [Except.ok.injEq] at h
    subst h
    exact List.Pairwise.sublist (List.take_sublist topn _) (sortDesc_pairwise _)

/-- Witness for C10: a within-bound pair is returned exactly, an
out-of-bound pair is clipped to the maximum length. -/
theorem C10_witness :
    levdist "cat".toList "cats".toList 1 = lev "cat".toList "cats".toList ∧
    levdist "cat".toList "dog".toList 1 =
      max "cat".toList.length "dog".toList.length :=
  ⟨(C10_levdist_clipping "cat".toList "cats".toList 1).1 (by decide),
   (C10_levdist_clipping "cat".toList "dog".toList 1).2.1 (by decide)⟩

/-- Numeric evaluation of `levsim` at the default parameters
`alpha = 1.8`, `beta = 5`. -/
theorem levsim_num (t1 t2 : List Char) (s : ℝ) (d m : ℕ) (r : ℝ)
    (hm : max t1.length t2.length = m) (hm0 : m ≠ 0)
    (hr : (9/5 : ℝ) * (1 - (d : ℝ) / (m : ℝ)) ^ (5 : ℕ) = r) :
    levsim t1 t2 (9/5) 5 s (some d) = .ok r := by
  rw [levsim_ok t1 t2 (9/5) 5 s d (by norm_num) (by norm_num)
    (by rw [hm]; exact hm0), hm]
  congr 1
  rw [show (5:ℝ) = ((5:ℕ):ℝ) by norm_num, Real.rpow_natCast]
  exact hr

/-- Numeric evaluation of `levsim` at `alpha = beta = 1`. -/
theorem levsim_one (t1 t2 : List Char) (s : ℝ) (d m : ℕ) (r : ℝ)
    (hm : max t1.length t2.length = m) (hm0 : m ≠ 0)
    (hr : 1 - (d : ℝ) / (m : ℝ) = r) :
    levsim t1 t2 1 1 s (some d) = .ok r := by
  rw [levsim_ok t1 t2 1 1 s d one_pos one_pos (by rw [hm]; exact hm0), hm,
    Real.rpow_one, one_mul, hr]

/-- The score of "cats" against the query "cat" at distance 1:
`1.8 * (1 - 1/4)^5 = 2187/5120 ≈ 0.4271` (for any threshold, which is
unused once the distance is supplied). -/
theorem levsim_cat_cats (s : ℝ) :
    levsim ['c','a','t'] ['c','a','t','s'] (9/5) 5 s (some 1) = .ok (2187/5120) :=
  levsim_num _ _ s 1 4 _ (by decide) (by norm_num) (by norm_num)

/-- The score of "bat" against the query "cat" at distance 1:
`1.8 * (1 - 1/3)^5 = 32/135 ≈ 0.2370`. -/
theorem levsim_cat_bat (s : ℝ) :
    levsim ['c','a','t'] ['b','a','t'] (9/5) 5 s (some 1) = .ok (32/135) :=
  levsim_num _ _ s 1 3 _ (by decide) (by norm_num) (by norm_num)

/-- Full evaluation of the spec's concrete scenario: vocabulary
cat, cats, bat, dog; query "cat"; `max_distance = 1`; threshold 0;
default `alpha`, `beta`. -/
theorem most_similar_cat_eval :
    most_similar [['c','a','t'], ['c','a','t','s'], ['b','a','t'], ['d','o','g']]
      (9/5) 5 0 1 ['c','a','t'] 10 =
    .ok [(['c','a','t','s'], 2187/5120), (['b','a','t'], 32/135)] := by
  have hfil : (trie_automaton_intersection 1 ['c','a','t']
      [['c','a','t'], ['c','a','t','s'], ['b','a','t'], ['d','o','g']]).filter
      (fun p => p.2 ≠ ['c','a','t'])
      = [(1, ['c','a','t','s']), (1, ['b','a','t'])] := by decide
  have hmap : mapExcept
      (fun p => (levsim ['c','a','t'] p.2 (9/5) 5 0 (some p.1)).map
        fun sv => (sv, p.2))
      [(1, ['c','a','t','s']), (1, ['b','a','t'])]
      = .ok [(2187/5120, ['c','a','t','s']), (32/135, ['b','a','t'])] := by
    simp only [mapExcept, levsim_cat_cats, levsim_cat_bat, Except.map]
  have hp1 : (0:ℝ) < 2187/5120 := by norm_num
  have hp2 : (0:ℝ) < 32/135 := by norm_num
  have hle : (32/135 : ℝ) ≤ 2187/5120 := by norm_num
  rw [most_similar, similarities_list, hfil, hmap]
  simp only [List.filter_cons, List.filter_nil, decide_eq_true_eq, hp1, hp2,
    if_true, List.map_cons, List.map_nil, sortDesc, insertDesc, hle,
    List.take]

/-- The threshold-derived search bound of spec §4.4 at threshold 0.9 for
maximum length 4 is 0 (since `(0.9/1.8)^(1/5) = 0.5^(1/5) > 3/4`). -/
theorem mdt_threshold_ninety : max_distance_for_threshold (9/10) 4 (9/5) 5 = 0 := by
  rw [max_distance_for_threshold]
  have hclamp : max (min ((9:ℝ)/10) 1) 0 = 9/10 := by norm_num
  rw [hclamp]
  have hhalf : ((9:ℝ)/10) / ((9:ℝ)/5) = 1/2 := by norm_num
  rw [hhalf]
  have hroot : ((243/1024:ℝ)) ^ ((1:ℝ)/5) = 3/4 := by
    rw [show (243/1024:ℝ) = (3/4:ℝ) ^ ((5:ℕ):ℝ) by rw [Real.rpow_natCast]; norm_num]
    rw [← Real.rpow_mul (by norm_num : (0:ℝ) ≤ 3/4)]
    norm_num
  have hlow : (3/4 : ℝ) < ((1:ℝ)/2) ^ ((1:ℝ)/5) := by
    rw [← hroot]
    exact Real.rpow_lt_rpow (by norm_num) (by norm_num) (by norm_num)
  have hup : ((1:ℝ)/2) ^ ((1:ℝ)/5) ≤ 1 :=
    Real.rpow_le_one (by norm_num) (by norm_num) (by norm_num)
  rw [Int.floor_eq_iff]
  constructor
  · push_cast
    nlinarith
  · push_cast
    nlinarith

/-- C3: `most_similar` passes the configured `max_distance` to the
automaton unchanged and the configured threshold does not restrict the
result (it is forwarded to `levsim` as `min_similarity`, which is inert
because the exact distance is supplied): with vocabulary cat, cats,
threshold 0.9 and `max_distance = 2`, the call returns "cats" with score
`2187/5120 ≈ 0.427 < 0.9`, although the threshold-derived bound of spec
§4.4 is `min(2, 0) = 0`, under which no match would be returned. -/
theorem C3_threshold_not_applied :
    most_similar [['c','a','t'], ['c','a','t','s']] (9/5) 5 (9/10) 2 ['c','a','t'] 10 =
      .ok [(['c','a','t','s'], 2187/5120)] ∧
    (2187/5120 : ℝ) < 9/10 ∧
    max_distance_for_threshold (9/10) 4 (9/5) 5 = 0 := by
  refine ⟨?_, by norm_num, mdt_threshold_ninety⟩
  have hfil : (trie_automaton_intersection 2 ['c','a','t']
      [['c','a','t'], ['c','a','t','s']]).filter
      (fun p => p.2 ≠ ['c','a','t']) = [(1, ['c','a','t','s'])] := by decide
  have hmap : mapExcept
      (fun p => (levsim ['c','a','t'] p.2 (9/5) 5 (9/10) (some p.1)).map
        fun sv => (sv, p.2))
      [(1, ['c','a','t','s'])]
      = .ok [(2187/5120, ['c','a','t','s'])] := by
    simp only [mapExcept, levsim_cat_cats, Except.map]
  have hp1 : (0:ℝ) < 2187/5120 := by norm_num
  rw [most_similar, similarities_list, hfil, hmap]
  simp only [List.filter_cons, List.filter_nil, decide_eq_true_eq, hp1,
    if_true, List.map_cons, List.map_nil, sortDesc, insertDesc, List.take]

/-- C4, counterexample: in the spec's concrete scenario the score of "bat"
is `1.8 * (1 - 1/3)^5 = 32/135 ≈ 0.2370`, not `≈ 0.1580` as the claim
states (off by about 0.079, far outside any rounding tolerance). -/
theorem C4_counterexample :
    most_similar [['c','a','t'], ['c','a','t','s'], ['b','a','t'], ['d','o','g']]
      (9/5) 5 0 1 ['c','a','t'] 10 =
    .ok [(['c','a','t','s'], 2187/5120), (['b','a','t'], 32/135)] ∧
    ¬ |(32/135 : ℝ) - 1580/10000| < 1/20 := by
  refine ⟨most_similar_cat_eval, ?_⟩
  rw [abs_of_pos (by norm_num)]
  norm_num

/-- C4 (amended): in the concrete scenario the scores are
`1.8 * (1 - 1/4)^5 = 2187/5120 ≈ 0.4271` for "cats" and
`1.8 * (1 - 1/3)^5 = 32/135 ≈ 0.2370` for "bat", and
`most_similar("cat", 10)` returns "cats" then "bat" with those scores
("dog" at distance 3 is not matched, "cat" itself is excluded). -/
theorem C4_concrete_scenario :
    most_similar [['c','a','t'], ['c','a','t','s'], ['b','a','t'], ['d','o','g']]
      (9/5) 5 0 1 ['c','a','t'] 10 =
    .ok [(['c','a','t','s'], 2187/5120), (['b','a','t'], 32/135)] ∧
    |(2187/5120 : ℝ) - 4271/10000| < 1/1000 ∧
    |(32/135 : ℝ) - 2370/10000| < 1/1000 := by
  refine ⟨most_similar_cat_eval, ?_, ?_⟩
  · rw [abs_of_pos (by norm_num)]
    norm_num
  · rw [abs_of_pos (by norm_num)]
    norm_num

/-- Witness for C5: the query "a" is in the vocabulary but is excluded from
its own result list. -/
theorem C5_witness : (['a'] : List Char) ∉
    (([] : List (List Char × ℝ)).map Prod.fst) := by
  apply C5_self_exclusion [['a']] 1 1 0 1 ['a'] 5 []
  have hfil : (trie_automaton_intersection 1 ['a'] [['a']]).filter
      (fun p => p.2 ≠ ['a']) = [] := by decide
  rw [most_similar, similarities_list, hfil]
  rfl

/-- Scored matches for the C6 witness scenario. -/
theorem C6_sims_ab :
    similarities_list [['a','b']] 1 1 0 1 ['a'] = .ok [((1:ℝ)/2, ['a','b'])] := by
  have hfil : (trie_automaton_intersection 1 ['a'] [['a','b']]).filter
      (fun p => p.2 ≠ ['a']) = [(1, ['a','b'])] := by decide
  have hab : levsim ['a'] ['a','b'] 1 1 0 (some 1) = .ok (1/2) :=
    levsim_one _ _ 0 1 2 _ (by decide) (by norm_num) (by norm_num)
  rw [similarities_list, hfil]
  simp only [mapExcept, hab, Except.map]

/-- Result for the C6 witness scenario. -/
theorem C6_eval_ab :
    most_similar [['a','b']] 1 1 0 1 ['a'] 10 = .ok [(['a','b'], (1:ℝ)/2)] := by
  have hp : (0:ℝ) < 1/2 := by norm_num
  rw [most_similar, C6_sims_ab]
  simp only [List.filter_cons, List.filter_nil, decide_eq_true_eq, hp,
    if_true, List.map_cons, List.map_nil, sortDesc, insertDesc, List.take]

/-- Witness for C6: one positive-score match, `topn = 10`, result length
`min 10 1 = 1`. -/
theorem C6_witness :
    ([(['a','b'], (1:ℝ)/2)] : List (List Char × ℝ)).length =
      min 10 (([((1:ℝ)/2, ['a','b'])].filter fun p => 0 < p.1)).length :=
  C6_truncation [['a','b']] 1 1 0 1 ['a'] 10 [((1:ℝ)/2, ['a','b'])]
    [(['a','b'], (1:ℝ)/2)] C6_sims_ab C6_eval_ab

/-- Result for the C7 witness scenario. -/
theorem C7_eval_ab_ac :
    most_similar [['a','b'], ['a','c']] 1 1 0 1 ['a'] 10 =
      .ok [(['a','b'], (1:ℝ)/2), (['a','c'], (1:ℝ)/2)] := by
  have hfil : (trie_automaton_intersection 1 ['a'] [['a','b'], ['a','c']]).filter
      (fun p => p.2 ≠ ['a']) = [(1, ['a','b']), (1, ['a','c'])] := by decide
  have hab : levsim ['a'] ['a','b'] 1 1 0 (some 1) = .ok (1/2) :=
    levsim_one _ _ 0 1 2 _ (by decide) (by norm_num) (by norm_num)
  have hac : levsim ['a'] ['a','c'] 1 1 0 (some 1) = .ok (1/2) :=
    levsim_one _ _ 0 1 2 _ (by decide) (by norm_num) (by norm_num)
  have hp : (0:ℝ) < 1/2 := by norm_num
  have hle : ((1:ℝ)/2) ≤ 1/2 := le_refl _
  rw [most_similar, similarities_list, hfil]
  simp only [mapExcept, hab, hac, Except.map]
  simp only [List.filter_cons, List.filter_nil, decide_eq_true_eq, hp,
    if_true, List.map_cons, List.map_nil, sortDesc, insertDesc, hle,
    List.take]

/-- Witness for C7: a two-element result is pairwise descending. -/
theorem C7_witness :
    ([(['a','b'], (1:ℝ)/2), (['a','c'], (1:ℝ)/2)] : List (List Char × ℝ)).Pairwise
      (fun a b => b.2 ≤ a.2) :=
  C7_descending [['a','b'], ['a','c']] 1 1 0 1 ['a'] 10 _ C7_eval_ab_ac

end Gensim
